import Mathlib

/-
Verification of the fire-calculator repository's core numeric modules.

The JavaScript calculators are embedded shallowly: JS numbers are modelled
as exact rationals (ℚ), `Math.round` as `jsRound` (floor of x + 1/2, JS's
round-half-up), thrown exceptions as `Except String`, and `for`/`while`
loops as structural recursion on an explicit fuel / step count.
-/

/-- JS `Math.round`: nearest integer, halves toward +infinity. -/
def jsRound (q : ℚ) : ℤ := ⌊q + 1 / 2⌋

theorem jsRound_nonneg {q : ℚ} (h : 0 ≤ q) : 0 ≤ jsRound q := by
  unfold jsRound
  exact Int.floor_nonneg.mpr (by linarith)

theorem jsRound_le_int {q : ℚ} {n : ℤ} (h : q ≤ (n : ℚ)) : jsRound q ≤ n := by
  unfold jsRound
  rw [show ((1 : ℚ) / 2) = (2 : ℚ)⁻¹ by norm_num]
  have : q + (2 : ℚ)⁻¹ < (n : ℚ) + 1 := by
    have h2 : (0 : ℚ) < 2 := by norm_num
    have : (2 : ℚ)⁻¹ < 1 := by norm_num
    linarith
  exact Int.lt_add_one_iff.mp (Int.floor_lt.mpr (by push_cast; linarith))

/-! ## FireCalculator (src/src/calculators/fireCalculator.js) -/

/-- `FireCalculator.calculateSavingsGoal`: throws when `withdrawalRate <= 0`,
otherwise returns `monthlyExpenses * 12 / withdrawalRate`. -/
def calculateSavingsGoal (monthlyExpenses withdrawalRate : ℚ) : Except String ℚ :=
  if withdrawalRate ≤ 0 then
    Except.error ("Withdrawal rate must be greater than zero.")
  else
    Except.ok (monthlyExpenses * 12 / withdrawalRate)

/-- `FireCalculator.calculateWithdrawalRate`: throws when `savingsGoal <= 0`,
otherwise returns `(monthlyExpenses * 12) / savingsGoal`. -/
def calculateWithdrawalRate (savingsGoal monthlyExpenses : ℚ) : Except String ℚ :=
  if savingsGoal ≤ 0 then
    Except.error ("Savings goal must be greater than zero.")
  else
    Except.ok (monthlyExpenses * 12 / savingsGoal)

/-- Whether an `Except` value is an error (a thrown JS exception). -/
def isError {α : Type} : Except String α → Bool
  | Except.error _ => true
  | Except.ok _ => false

/-! ## TaxCalculator (src/unnamed/part_005) -/

/-- One row of `TaxCalculator.taxBrackets`; `max = none` models JS `Infinity`. -/
structure TaxBracket where
  min : ℚ
  max : Option ℚ
  rate : ℚ
  baseAmount : ℚ
deriving DecidableEq

/-- The 2024-25 bracket table from the `TaxCalculator` constructor. -/
def taxBrackets : List TaxBracket :=
  [ ⟨0, some 18200, 0, 0⟩,
    ⟨18201, some 45000, 0.19, 0⟩,
    ⟨45001, some 120000, 0.325, 5092⟩,
    ⟨120001, some 180000, 0.37, 29467⟩,
    ⟨180001, none, 0.45, 51667⟩ ]

/-- Bracket lookup by index (with an all-zero out-of-range default). -/
def bracketAt (i : ℕ) : TaxBracket :=
  taxBrackets.getD i ⟨0, none, 0, 0⟩

/-- JS `Math.min(annualIncome, bracket.max)` where `max` may be `Infinity`. -/
def jsMinCap (income : ℚ) : Option ℚ → ℚ
  | none => income
  | some m => min income m

/-- `TaxCalculator.calculateIncomeTax`: the loop overwrites `tax` for every
bracket whose `min` the income exceeds, so the last applicable bracket wins. -/
def calculateIncomeTax (annualIncome : ℚ) : ℚ :=
  taxBrackets.foldl
    (fun tax b =>
      if annualIncome > b.min then
        b.baseAmount + (jsMinCap annualIncome b.max - b.min + 1) * b.rate
      else tax)
    0

/-- `TaxCalculator.calculateLITO`. -/
def calculateLITO (annualIncome : ℚ) : ℚ :=
  if annualIncome ≤ 37500 then 700
  else if annualIncome < 66667 then max 0 (700 - (annualIncome - 37500) * 0.05)
  else 0

/-- `TaxCalculator.calculateMedicareLevy`. -/
def calculateMedicareLevy (annualIncome : ℚ) : ℚ :=
  if annualIncome ≤ 24276 then 0
  else if annualIncome ≤ 24276 + 3740 then (annualIncome - 24276) * 0.10
  else annualIncome * 0.02

/-- `TaxCalculator.calculateSuper`. -/
def calculateSuper (annualIncome superRate : ℚ) : ℚ :=
  annualIncome * superRate

/-- The fields of `TaxCalculator.calculateNetSalary`'s result that the
verified claims use (all rounded exactly as the source rounds them). -/
structure NetSalaryResult where
  taxableIncome : ℤ
  incomeTax : ℤ
  lito : ℤ
  medicareLevy : ℤ
  totalTax : ℤ
  netAnnualIncome : ℤ
  superannuationAnnual : ℤ
deriving DecidableEq

/-- `TaxCalculator.calculateNetSalary`. -/
def calculateNetSalary (annualSalary : ℚ) (includeSuperInPackage : Bool)
    (superRate preTaxDeductions postTaxDeductions : ℚ) : NetSalaryResult :=
  let baseSalary :=
    if includeSuperInPackage then annualSalary / (1 + superRate) else annualSalary
  let superContribution :=
    if includeSuperInPackage then annualSalary - annualSalary / (1 + superRate)
    else calculateSuper annualSalary superRate
  let taxableIncome := baseSalary - preTaxDeductions
  let incomeTax := calculateIncomeTax taxableIncome
  let lito := calculateLITO taxableIncome
  let medicareLevy := calculateMedicareLevy taxableIncome
  let totalTax := max 0 (incomeTax - lito + medicareLevy)
  let netIncome := taxableIncome - totalTax - postTaxDeductions
  { taxableIncome := jsRound taxableIncome
    incomeTax := jsRound incomeTax
    lito := jsRound lito
    medicareLevy := jsRound medicareLevy
    totalTax := jsRound totalTax
    netAnnualIncome := jsRound netIncome
    superannuationAnnual := jsRound superContribution }

/-- `calculateNetSalary` with the source's default optional arguments, as the
binary-search loops call it: `this.calculateNetSalary(mid).net.annualIncome`. -/
def netAnnualDefault (annualSalary : ℚ) : ℤ :=
  (calculateNetSalary annualSalary false 0.115 0 0).netAnnualIncome

/-! ## Generic while-loop semantics

A JS `while (guard) body` loop is modelled by `whileIter guard step`:
apply `step` while `guard` holds, for at most `fuel` iterations.  A run is
finished when the guard fails on the result; termination of the source loop
is the statement that some finite fuel makes the guard fail. -/

/-- Run `step` while `guard` holds, at most `fuel` times. -/
def whileIter {σ : Type} (guard : σ → Prop) [DecidablePred guard]
    (step : σ → σ) : ℕ → σ → σ
  | 0, s => s
  | n + 1, s => if guard s then whileIter guard step n (step s) else s

/-- State of the binary-search loops in `TaxCalculator.calculateRequiredGrossSalary`
and `TaxCalculator.calculateRequiredSalaryIncrease` (`best` is the
`requiredSalary` / `targetSalary` variable updated in the `else` branch). -/
structure SalaryState where
  low : ℚ
  high : ℚ
  best : ℚ
deriving DecidableEq

/-- Loop guard `high - low > 1` shared by both salary binary searches. -/
def salaryGuard (s : SalaryState) : Prop := s.high - s.low > 1

instance : DecidablePred salaryGuard := fun s =>
  inferInstanceAs (Decidable (s.high - s.low > 1))

/-- One iteration of the salary binary-search body: take the midpoint, move
`low` up when the midpoint's take-home pay is below target, otherwise move
`high` down and record the midpoint. -/
def salaryStep (targetTakeHome : ℚ) (s : SalaryState) : SalaryState :=
  let mid := (s.low + s.high) / 2
  if (netAnnualDefault mid : ℚ) < targetTakeHome then
    ⟨mid, s.high, s.best⟩
  else
    ⟨s.low, mid, mid⟩

/-! ## SuperannuationCalculator (src/src/calculators/superannuationCalculator.js) -/

/-- The per-year loop of `SuperannuationCalculator.calculateRetirementBalance`,
returning the final balance.  Arguments of the recursion: remaining years,
current income (escalated each year), current balance. -/
def retirementBalanceLoop (employerContributionRate personalContributionRate
    returnRate inflationRate feeRate : ℚ) : ℕ → ℚ → ℚ → ℚ
  | 0, _, balance => balance
  | n + 1, income, balance =>
    let employerContribution := income * employerContributionRate
    let personalContribution := income * personalContributionRate
    let netEmployerContribution := employerContribution * (1 - 0.15)
    let netPersonalContribution := personalContribution * (1 - 0.15)
    let balance1 := balance + netEmployerContribution + netPersonalContribution
    let grossYearReturn := balance1 * returnRate
    let netYearReturn := grossYearReturn * (1 - 0.15)
    let yearFees := balance1 * feeRate
    let balance2 := balance1 + netYearReturn - yearFees
    retirementBalanceLoop employerContributionRate personalContributionRate
      returnRate inflationRate feeRate n (income * (1 + inflationRate)) balance2

/-- Exact final balance of `calculateRetirementBalance` (the loop body, with
no age validation); the source stores `Math.round` of it as `finalBalance`.
The JS `for (year = 0; year < years; year++)` with possibly fractional
`years = retirementAge - currentAge` runs `⌈years⌉` times. -/
def retirementFinalBalance (currentAge retirementAge currentSuper annualIncome
    employerContributionRate personalContributionRate returnRate inflationRate
    feeRate : ℚ) : ℚ :=
  retirementBalanceLoop employerContributionRate personalContributionRate
    returnRate inflationRate feeRate
    (Int.ceil (retirementAge - currentAge)).toNat annualIncome currentSuper

/-- `SuperannuationCalculator.calculateRetirementBalance`: throws when
`retirementAge <= currentAge`, otherwise simulates and returns the rounded
final balance. -/
def calculateRetirementBalanceE (currentAge retirementAge currentSuper
    annualIncome employerContributionRate personalContributionRate returnRate
    inflationRate feeRate : ℚ) : Except String ℤ :=
  if retirementAge ≤ currentAge then
    Except.error ("Retirement age must be greater than current age.")
  else
    Except.ok (jsRound (retirementFinalBalance currentAge retirementAge
      currentSuper annualIncome employerContributionRate
      personalContributionRate returnRate inflationRate feeRate))

/-- State of the bisection loop in
`SuperannuationCalculator.calculateRequiredContributions`. -/
structure ContribState where
  iterations : ℕ
  low : ℚ
  high : ℚ
deriving DecidableEq

/-- Guard of the contributions bisection:
`iterations < maxIterations && (high - low) > 0.0001`.  A state that has
already thrown (the inner call's age-validation error) is out of the loop. -/
def contribGuardE : Except String ContribState → Prop
  | Except.error _ => False
  | Except.ok s => s.iterations < 100 ∧ s.high - s.low > 0.0001

instance : DecidablePred contribGuardE := fun s =>
  match s with
  | Except.error _ => isFalse (fun h => h)
  | Except.ok st =>
    inferInstanceAs (Decidable (st.iterations < 100 ∧ st.high - st.low > 0.0001))

/-- One iteration of the contributions bisection body: call
`calculateRetirementBalance` with the midpoint as personal contribution rate
(employer rate, inflation and fees at their defaults, exactly as the source
call passes them).  The inner call is the guarded one: when it throws
(`retirementAge <= currentAge`) the exception escapes the loop, so the step
carries the error. -/
def contribStepE (currentAge retirementAge currentSuper targetBalance
    annualIncome returnRate : ℚ) :
    Except String ContribState → Except String ContribState
  | Except.error e => Except.error e
  | Except.ok s =>
    match calculateRetirementBalanceE currentAge retirementAge currentSuper
        annualIncome 0.115 ((s.low + s.high) / 2) returnRate 0.025 0.0085 with
    | Except.error e => Except.error e
    | Except.ok finalBalance =>
      if (finalBalance : ℚ) < targetBalance then
        Except.ok ⟨s.iterations + 1, (s.low + s.high) / 2, s.high⟩
      else
        Except.ok ⟨s.iterations + 1, s.low, (s.low + s.high) / 2⟩

/-- The contributions bisection loop as the source writes it, recursing on
the remaining iteration budget (`maxIterations - iterations`); an error
thrown by the inner `calculateRetirementBalance` call propagates out. -/
def contribLoop (currentAge retirementAge currentSuper targetBalance
    annualIncome returnRate : ℚ) : ℕ → ℚ → ℚ → Except String (ℚ × ℚ)
  | 0, low, high => Except.ok (low, high)
  | n + 1, low, high =>
    if high - low > 0.0001 then
      match calculateRetirementBalanceE currentAge retirementAge currentSuper
          annualIncome 0.115 ((low + high) / 2) returnRate 0.025 0.0085 with
      | Except.error e => Except.error e
      | Except.ok finalBalance =>
        if (finalBalance : ℚ) < targetBalance then
          contribLoop currentAge retirementAge currentSuper targetBalance
            annualIncome returnRate n ((low + high) / 2) high
        else
          contribLoop currentAge retirementAge currentSuper targetBalance
            annualIncome returnRate n low ((low + high) / 2)
    else Except.ok (low, high)

/-- `SuperannuationCalculator.calculateRequiredContributions`: degenerate
targets short-circuit to 0 before any simulation; otherwise bisect
`[0, 0.5]` for at most 100 iterations and return the midpoint of the final
bracket as a percentage rounded to two decimals — unless the inner
`calculateRetirementBalance` call throws its age-validation error, which
escapes this function as the JS exception does. -/
def calculateRequiredContributions (currentAge retirementAge currentSuper
    targetBalance annualIncome returnRate : ℚ) : Except String ℚ :=
  if targetBalance ≤ currentSuper then Except.ok 0
  else
    match contribLoop currentAge retirementAge currentSuper targetBalance
        annualIncome returnRate 100 0 0.5 with
    | Except.error e => Except.error e
    | Except.ok p => Except.ok ((jsRound ((p.1 + p.2) / 2 * 10000) : ℚ) / 100)

/-! ## SavingsCalculator (src/src/calculators/savingsCalculator.js) -/

/-- `this.compoundingFrequencies[compoundingFrequency] || 12`. -/
def compoundingFrequencies (s : String) : ℕ :=
  if s = "daily" then 365
  else if s = "monthly" then 12
  else if s = "quarterly" then 4
  else if s = "annually" then 1
  else 12

/-- The per-period loop of `SavingsCalculator.calculateSavingsGrowth`
(contribution added, then interest on the new balance), returning the final
balance. -/
def savingsGrowthLoop (contributionPerPeriod ratePerPeriod : ℚ) : ℕ → ℚ → ℚ
  | 0, balance => balance
  | n + 1, balance =>
    let balance1 := balance + contributionPerPeriod
    let balance2 := balance1 + balance1 * ratePerPeriod
    savingsGrowthLoop contributionPerPeriod ratePerPeriod n balance2

/-- `SavingsCalculator.calculateSavingsGrowth`: throws when `years <= 0`,
otherwise simulates `⌊years * compoundsPerYear⌋` periods (the JS loop
`for (period = 1; period <= totalPeriods; ...)`) and returns the rounded
final balance. -/
def calculateSavingsGrowthE (initialBalance monthlyContribution
    annualInterestRate years : ℚ) (compoundingFrequency : String) :
    Except String ℤ :=
  if years ≤ 0 then
    Except.error ("Years must be greater than zero.")
  else
    let compoundsPerYear : ℕ := compoundingFrequencies compoundingFrequency
    let ratePerPeriod := annualInterestRate / compoundsPerYear
    let contributionPerPeriod := monthlyContribution * (12 / (compoundsPerYear : ℚ))
    Except.ok (jsRound (savingsGrowthLoop contributionPerPeriod ratePerPeriod
      (Int.floor (years * compoundsPerYear)).toNat initialBalance))

/-! ## LoanCalculator (src/unnamed/part_007) -/

/-- `frequencies[paymentFrequency] || 12`. -/
def frequencies (paymentFrequency : String) : ℕ :=
  if paymentFrequency = "weekly" then 52
  else if paymentFrequency = "fortnightly" then 26
  else 12

/-- The closed-form annuity payment computed once by
`LoanCalculator.calculateLoanRepayment` (`P / n` when the annual rate is 0). -/
def loanPayment (loanAmount annualInterestRate : ℚ) (totalPayments : ℕ)
    (ratePerPeriod : ℚ) : ℚ :=
  if annualInterestRate = 0 then loanAmount / (totalPayments : ℚ)
  else
    loanAmount * (ratePerPeriod * (1 + ratePerPeriod) ^ totalPayments) /
      ((1 + ratePerPeriod) ^ totalPayments - 1)

/-- Balance after `k` periods of the amortization recurrence of
`LoanCalculator.generateAmortizationSchedule`:
`interest = balance * ratePerPeriod`, `principal = payment - interest`,
`balance -= principal`. -/
def amortBalance (principal payment ratePerPeriod : ℚ) : ℕ → ℚ
  | 0 => principal
  | k + 1 =>
    let b := amortBalance principal payment ratePerPeriod k
    let interestPayment := b * ratePerPeriod
    let principalPayment := payment - interestPayment
    b - principalPayment

/-- The principal component of payment number `k + 1` (computed from the
balance after `k` payments). -/
def principalPaymentAt (principal payment ratePerPeriod : ℚ) (k : ℕ) : ℚ :=
  payment - amortBalance principal payment ratePerPeriod k * ratePerPeriod

/-- Sum of the principal components over the first `n` payments. -/
def sumPrincipal (principal payment ratePerPeriod : ℚ) (n : ℕ) : ℚ :=
  (Finset.range n).sum (fun k => principalPaymentAt principal payment ratePerPeriod k)

/-- One stored row of the amortization schedule (rounded as the source
rounds: cents for the flows, `Math.max(0, Math.round(balance))` for the
remaining balance). -/
structure ScheduleEntry where
  payment : ℕ
  year : ℕ
  principalPayment : ℚ
  interestPayment : ℚ
  remainingBalance : ℤ
deriving DecidableEq

/-- The schedule row pushed at payment number `i` (`1 ≤ i`). -/
def scheduleEntryAt (principal payment ratePerPeriod : ℚ) (paymentsPerYear i : ℕ) :
    ScheduleEntry :=
  { payment := i
    year := (Int.ceil ((i : ℚ) / (paymentsPerYear : ℚ))).toNat
    principalPayment :=
      (jsRound (principalPaymentAt principal payment ratePerPeriod (i - 1) * 100) : ℚ) / 100
    interestPayment :=
      (jsRound (amortBalance principal payment ratePerPeriod (i - 1) * ratePerPeriod * 100) : ℚ) / 100
    remainingBalance := max 0 (jsRound (amortBalance principal payment ratePerPeriod i)) }

/-- `LoanCalculator.generateAmortizationSchedule`: rows are stored at
payment numbers `i` with `i % paymentsPerYear == 0 || i === totalPayments`. -/
def generateAmortizationSchedule (principal payment ratePerPeriod : ℚ)
    (totalPayments paymentsPerYear : ℕ) : List ScheduleEntry :=
  (((List.range totalPayments).map (· + 1)).filter
      (fun i => i % paymentsPerYear == 0 || i == totalPayments)).map
    (scheduleEntryAt principal payment ratePerPeriod paymentsPerYear)

/-! ## RetirementIncomeCalculator (src/unnamed/part_004) -/

/-- One row of the `calculateSafeWithdrawal` timeline. -/
structure SWRecord where
  year : ℕ
  withdrawal : ℤ
  portfolioValue : ℤ
  withdrawalRate : ℚ
deriving DecidableEq

/-- One year's balance update in `calculateSafeWithdrawal`: withdraw at the
start of the year, then apply the return only to a positive remainder (a
non-positive balance is clamped to zero and earns nothing). -/
def swNextBalance (expectedReturn remainingBalance adjustedExpenses : ℚ) : ℚ :=
  if remainingBalance - adjustedExpenses > 0 then
    (remainingBalance - adjustedExpenses) * (1 + expectedReturn)
  else 0

/-- The record `calculateSafeWithdrawal` pushes for one year, after the
expenses have been escalated for inflation (the source escalates before
pushing, so the recorded withdrawal is the escalated amount). -/
def swRecordOf (inflationRate : ℚ) (year : ℕ)
    (newBalance adjustedExpenses : ℚ) : SWRecord :=
  let newExpenses := adjustedExpenses * (1 + inflationRate)
  { year := year
    withdrawal := jsRound newExpenses
    portfolioValue := jsRound (max 0 newBalance)
    withdrawalRate :=
      if newBalance > 0 then (jsRound (newExpenses / newBalance * 10000) : ℚ) / 100
      else 0 }

/-- The projection loop of `RetirementIncomeCalculator.calculateSafeWithdrawal`:
push the record each year and break once the balance is exhausted.
Recursion arguments: remaining years, current year number, balance, current
expenses. -/
def safeWithdrawalAux (expectedReturn inflationRate : ℚ) :
    ℕ → ℕ → ℚ → ℚ → List SWRecord
  | 0, _, _, _ => []
  | n + 1, year, remainingBalance, adjustedExpenses =>
    if swNextBalance expectedReturn remainingBalance adjustedExpenses ≤ 0 then
      [swRecordOf inflationRate year
        (swNextBalance expectedReturn remainingBalance adjustedExpenses)
        adjustedExpenses]
    else
      swRecordOf inflationRate year
          (swNextBalance expectedReturn remainingBalance adjustedExpenses)
          adjustedExpenses ::
        safeWithdrawalAux expectedReturn inflationRate n (year + 1)
          (swNextBalance expectedReturn remainingBalance adjustedExpenses)
          (adjustedExpenses * (1 + inflationRate))

/-- The timeline built by `calculateSafeWithdrawal` (years numbered from 1). -/
def safeWithdrawalTimeline (portfolioValue annualExpenses : ℚ)
    (yearsInRetirement : ℕ) (expectedReturn inflationRate : ℚ) : List SWRecord :=
  safeWithdrawalAux expectedReturn inflationRate yearsInRetirement 1
    portfolioValue annualExpenses

/-- One row of the account-based-pension timeline in
`compareAnnuityVsAccountBased`. -/
structure ABRecord where
  year : ℕ
  payment : ℤ
  totalReceived : ℤ
  remainingValue : ℤ
deriving DecidableEq

/-- The zero-balance rows pushed for the years after depletion
(`payment: 0, remainingValue: 0`). -/
def zeroFill (totalReceived : ℤ) : ℕ → ℕ → List ABRecord
  | _, 0 => []
  | startYear, n + 1 =>
    ⟨startYear, 0, totalReceived, 0⟩ :: zeroFill totalReceived (startYear + 1) n

/-- One year's balance update on the account-based side of
`compareAnnuityVsAccountBased`: withdraw the minimum drawdown, then grow the
remainder by the investment return. -/
def abNextBalance (minimumDrawdown investmentReturn accountBalance : ℚ) : ℚ :=
  (accountBalance - accountBalance * minimumDrawdown) * (1 + investmentReturn)

/-- The record the account-based timeline pushes for one year. -/
def abRecordOf (minimumDrawdown : ℚ) (year : ℕ)
    (accountBalance newBalance newTotal : ℚ) : ABRecord :=
  { year := year
    payment := jsRound (accountBalance * minimumDrawdown)
    totalReceived := jsRound newTotal
    remainingValue := jsRound (max 0 newBalance) }

/-- The account-based side of
`RetirementIncomeCalculator.compareAnnuityVsAccountBased`: push the record
each year; once the balance hits zero, fill every remaining year with a zero
record and stop.  Recursion arguments: remaining years, current year number,
balance, total received. -/
def accountAux (minimumDrawdown investmentReturn : ℚ) :
    ℕ → ℕ → ℚ → ℚ → List ABRecord
  | 0, _, _, _ => []
  | n + 1, year, accountBalance, totalReceived =>
    if abNextBalance minimumDrawdown investmentReturn accountBalance ≤ 0 then
      abRecordOf minimumDrawdown year accountBalance
          (abNextBalance minimumDrawdown investmentReturn accountBalance)
          (totalReceived + accountBalance * minimumDrawdown) ::
        zeroFill (jsRound (totalReceived + accountBalance * minimumDrawdown))
          (year + 1) n
    else
      abRecordOf minimumDrawdown year accountBalance
          (abNextBalance minimumDrawdown investmentReturn accountBalance)
          (totalReceived + accountBalance * minimumDrawdown) ::
        accountAux minimumDrawdown investmentReturn n (year + 1)
          (abNextBalance minimumDrawdown investmentReturn accountBalance)
          (totalReceived + accountBalance * minimumDrawdown)

/-- The account-based timeline of `compareAnnuityVsAccountBased`
(minimum drawdown fixed at 5%, years numbered from 1). -/
def accountTimeline (superBalance investmentReturn : ℚ)
    (yearsInRetirement : ℕ) : List ABRecord :=
  accountAux 0.05 investmentReturn yearsInRetirement 1 superBalance 0

/-- Maximum fortnightly pension for the household type
(`agePensionMaxCouple` / `agePensionMaxSingle`, 2024-25). -/
def agePensionMaxFor (isCouple : Bool) : ℚ :=
  if isCouple then 1682.80 else 1116.30

/-- Assets-test threshold for the household type (homeowner figures). -/
def assetsThresholdFor (isCouple : Bool) : ℚ :=
  if isCouple then 451500 else 301750

/-- Fortnightly income free area for the household type. -/
def incomeFreeAreaFor (isCouple : Bool) : ℚ :=
  if isCouple then 336 else 190

/-- Assets-test candidate: $3 per fortnight reduction per $1000 of assets
over the threshold, clamped at zero. -/
def assetsTestPensionOf (maxPension assetsThreshold assessableAssets : ℚ) : ℚ :=
  if assessableAssets > assetsThreshold then
    max 0 (maxPension - (assessableAssets - assetsThreshold) / 1000 * 3)
  else maxPension

/-- Income-test candidate: $0.50 reduction per $1 of fortnightly income over
the free area, clamped at zero. -/
def incomeTestPensionOf (maxPension incomeFreeArea annualIncome : ℚ) : ℚ :=
  if annualIncome / 26 > incomeFreeArea then
    max 0 (maxPension - (annualIncome / 26 - incomeFreeArea) * 0.50)
  else maxPension

/-- Result shape of `RetirementIncomeCalculator.calculateAgePension`: an
early ineligibility record below pension age, otherwise the assessed record. -/
inductive AgePensionResult where
  | notEligibleYet (reason : String) (currentAge yearsUntilEligible : ℚ)
  | assessed (eligible : Bool) (fortnightlyAmount : ℚ) (annualAmount : ℤ)
      (maxPension : ℤ) (reductionReason : String)
      (assetsTestPension incomeTestPension : ℤ)
deriving DecidableEq

/-- The fortnightly entitlement carried by an `AgePensionResult`
(zero for the under-age record, which carries no amount). -/
def fortnightlyAmountOf : AgePensionResult → ℚ
  | AgePensionResult.notEligibleYet _ _ _ => 0
  | AgePensionResult.assessed _ fortnightlyAmount _ _ _ _ _ => fortnightlyAmount

/-- `RetirementIncomeCalculator.calculateAgePension` (pension age 67). -/
def calculateAgePension (age assessableAssets annualIncome : ℚ)
    (isCouple isHomeowner : Bool) : AgePensionResult :=
  if age < 67 then
    AgePensionResult.notEligibleYet ("Must be 67 or older") age (67 - age)
  else
    let maxPension := agePensionMaxFor isCouple
    let atp := assetsTestPensionOf maxPension (assetsThresholdFor isCouple)
      assessableAssets
    let itp := incomeTestPensionOf maxPension (incomeFreeAreaFor isCouple)
      annualIncome
    let fortnightlyPension := min atp itp
    AgePensionResult.assessed (decide (fortnightlyPension > 0))
      ((jsRound (fortnightlyPension * 100) : ℚ) / 100)
      (jsRound (fortnightlyPension * 26))
      (jsRound (maxPension * 26))
      (if atp < itp then ("assets") else ("income"))
      (jsRound (atp * 26)) (jsRound (itp * 26))

/-! ## Claim theorems -/

/-- C2 counterexample: at `annualSalary = 100000` the income tax computed by
`calculateIncomeTax` is not 23967.5 as the claim states (it is 22967; the
claim's own formula `5092 + (100000 - 45000) * 0.325` also evaluates to
22967, not 23967.5). -/
theorem c2_tax_scenario_counterexample : calculateIncomeTax 100000 ≠ 23967.5 := by
  norm_num [calculateIncomeTax, taxBrackets, jsMinCap, List.foldl]

/-- C2 (amended): for `annualSalary = 100000` with super not included in the
package, `calculateNetSalary` yields income tax
`5092 + (100000 - 45000) * 0.325 = 22967` under the 2024-25 brackets, plus a
Medicare levy of 2000, minus a LITO offset of 0 (the income is past the
phase-out end), for a total tax of 24967 and a net annual income of 75033. -/
theorem c2_tax_scenario_amended :
    calculateIncomeTax 100000 = 22967 ∧
    (5092 : ℚ) + (100000 - 45000) * 0.325 = 22967 ∧
    calculateMedicareLevy 100000 = 2000 ∧
    calculateLITO 100000 = 0 ∧
    (calculateNetSalary 100000 false 0.115 0 0).totalTax = 24967 ∧
    (calculateNetSalary 100000 false 0.115 0 0).netAnnualIncome = 75033 := by
  norm_num [calculateNetSalary, calculateIncomeTax, calculateLITO,
    calculateMedicareLevy, calculateSuper, taxBrackets, jsMinCap, jsRound,
    List.foldl]

/-- C5: each operation raises its Invalid-Parameter error exactly when the
listed precondition is violated — `calculateSavingsGoal` errs iff
`withdrawalRate ≤ 0`, `calculateWithdrawalRate` errs iff `savingsGoal ≤ 0`,
`calculateSavingsGrowth` errs iff `years ≤ 0`, `calculateRetirementBalance`
errs iff `retirementAge ≤ currentAge` — the guard is evaluated before any
simulation step, and for all other inputs the operation returns a value. -/
theorem c5_invalid_parameter_guards :
    (∀ e r : ℚ, isError (calculateSavingsGoal e r) = true ↔ r ≤ 0) ∧
    (∀ g e : ℚ, isError (calculateWithdrawalRate g e) = true ↔ g ≤ 0) ∧
    (∀ b m rate y : ℚ, ∀ f : String,
      isError (calculateSavingsGrowthE b m rate y f) = true ↔ y ≤ 0) ∧
    (∀ ca ra cs ai er pr rr ir fr : ℚ,
      isError (calculateRetirementBalanceE ca ra cs ai er pr rr ir fr) = true ↔
        ra ≤ ca) := by
  refine ⟨?_, ?_, ?_, ?_⟩
  · intro e r
    unfold calculateSavingsGoal
    split <;> simp_all [isError]
  · intro g e
    unfold calculateWithdrawalRate
    split <;> simp_all [isError]
  · intro b m rate y f
    unfold calculateSavingsGrowthE
    split <;> simp_all [isError]
  · intro ca ra cs ai er pr rr ir fr
    unfold calculateRetirementBalanceE
    split <;> simp_all [isError]

/-- C6 counterexample: the bracket-base invariant as stated (without the
source's `+ 1` bracket-width correction) fails between brackets 1 and 2:
`5092 ≠ 0 + (45000 - 18201) * 0.19 = 5091.81`. -/
theorem c6_bracket_base_counterexample :
    ¬ ((bracketAt 2).baseAmount =
        (bracketAt 1).baseAmount +
          ((bracketAt 1).max.getD 0 - (bracketAt 1).min) * (bracketAt 1).rate) := by
  norm_num [bracketAt, taxBrackets]

/-- C6 (amended): for every consecutive pair of brackets the precomputed base
satisfies `base[i+1] = base[i] + (max[i] - min[i] + 1) * rate[i]` — the
bracket width the source itself uses (`Math.min(income, max) - min + 1`). -/
theorem c6_bracket_base_amended :
    ∀ i : Fin 4,
      (bracketAt (i.val + 1)).baseAmount =
        (bracketAt i.val).baseAmount +
          ((bracketAt i.val).max.getD 0 - (bracketAt i.val).min + 1) *
            (bracketAt i.val).rate := by
  intro i
  fin_cases i <;> norm_num [bracketAt, taxBrackets]

/-- C7: for every adjacent pair of brackets, the income tax computed by
`calculateIncomeTax` at the upper bound of bracket `i` equals the income tax
at the lower bound of bracket `i+1` — no jump discontinuity at boundaries. -/
theorem c7_bracket_continuity :
    ∀ i : Fin 4,
      calculateIncomeTax ((bracketAt i.val).max.getD 0) =
        calculateIncomeTax ((bracketAt (i.val + 1)).min) := by
  intro i
  fin_cases i <;>
    norm_num [bracketAt, taxBrackets, calculateIncomeTax, jsMinCap, List.foldl]

/-- C8: for positive monthly expenses and a withdrawal rate in (0, 1],
composing the two FireCalculator operations round-trips: feeding
`calculateSavingsGoal expenses rate` back into `calculateWithdrawalRate`
returns exactly `rate` (exact rational arithmetic; no error is raised). -/
theorem c8_inverse_consistency (e r : ℚ) (he : 0 < e) (hr0 : 0 < r)
    (hr1 : r ≤ 1) :
    Except.bind (calculateSavingsGoal e r)
      (fun g => calculateWithdrawalRate g e) = Except.ok r := by
  unfold calculateSavingsGoal
  rw [if_neg (not_le.mpr hr0)]
  show calculateWithdrawalRate (e * 12 / r) e = Except.ok r
  unfold calculateWithdrawalRate
  have hg : 0 < e * 12 / r := by positivity
  rw [if_neg (not_le.mpr hg)]
  have h12 : e * 12 ≠ 0 := by positivity
  rw [div_div_eq_mul_div, mul_comm, mul_div_assoc, div_self h12, mul_one]

/-- C8 witness: the spec's concrete scenario
`savingsGoal(3000, 0.04) = 900000` round-trips back to rate 0.04. -/
theorem c8_inverse_consistency_witness :
    (0 : ℚ) < 3000 ∧ (0 : ℚ) < 0.04 ∧ (0.04 : ℚ) ≤ 1 ∧
    Except.bind (calculateSavingsGoal 3000 0.04)
      (fun g => calculateWithdrawalRate g 3000) = Except.ok 0.04 :=
  ⟨by norm_num, by norm_num, by norm_num,
    c8_inverse_consistency 3000 0.04 (by norm_num) (by norm_num) (by norm_num)⟩

/-! ### Amortization lemmas for C1 -/

theorem amortBalance_succ (P pay r : ℚ) (k : ℕ) :
    amortBalance P pay r (k + 1) = amortBalance P pay r k * (1 + r) - pay := by
  simp only [amortBalance]
  ring

theorem amortBalance_zero_rate (P pay : ℚ) (k : ℕ) :
    amortBalance P pay 0 k = P - k * pay := by
  induction k with
  | zero => simp [amortBalance]
  | succ n ih =>
    rw [amortBalance_succ, ih]
    push_cast
    ring

theorem amortBalance_closed (P pay r : ℚ) (hr : r ≠ 0) (k : ℕ) :
    amortBalance P pay r k = (P - pay / r) * (1 + r) ^ k + pay / r := by
  induction k with
  | zero => simp [amortBalance]
  | succ n ih =>
    rw [amortBalance_succ, ih]
    field_simp
    ring

theorem sumPrincipal_eq (P pay r : ℚ) (n : ℕ) :
    sumPrincipal P pay r n = P - amortBalance P pay r n := by
  induction n with
  | zero => simp [sumPrincipal, amortBalance]
  | succ n ih =>
    rw [sumPrincipal, Finset.sum_range_succ]
    rw [show (Finset.range n).sum
        (fun k => principalPaymentAt P pay r k) = sumPrincipal P pay r n from rfl]
    rw [ih, amortBalance_succ, principalPaymentAt]
    ring

theorem one_le_frequencies (s : String) : 1 ≤ frequencies s := by
  unfold frequencies
  split
  · norm_num
  · split <;> norm_num

/-- The annuity payment exactly zeroes the balance after `n` payments. -/
theorem amortBalance_final (P rate : ℚ) (n ppy : ℕ) (hn : 1 ≤ n)
    (hppy : 1 ≤ ppy) (hrate : 0 ≤ rate) :
    amortBalance P (loanPayment P rate n (rate / (ppy : ℚ))) (rate / (ppy : ℚ)) n = 0 := by
  by_cases h0 : rate = 0
  · subst h0
    rw [loanPayment, if_pos rfl, zero_div, amortBalance_zero_rate]
    have hn0 : (n : ℚ) ≠ 0 := Nat.cast_ne_zero.mpr (by omega)
    field_simp
  · have hppy0 : (0 : ℚ) < (ppy : ℚ) := by
      exact_mod_cast Nat.pos_of_ne_zero (by omega)
    have hr : 0 < rate / (ppy : ℚ) :=
      div_pos (lt_of_le_of_ne hrate (Ne.symm h0)) hppy0
    have hA : 1 < (1 + rate / (ppy : ℚ)) ^ n := one_lt_pow₀ (by linarith) (by omega)
    have hA1 : (1 + rate / (ppy : ℚ)) ^ n - 1 ≠ 0 := ne_of_gt (by linarith)
    rw [loanPayment, if_neg h0, amortBalance_closed _ _ _ (ne_of_gt hr)]
    set A := (1 + rate / (ppy : ℚ)) ^ n with hAdef
    set r := rate / (ppy : ℚ) with hrdef
    have hpayr : P * (r * A) / (A - 1) / r = P * A / (A - 1) := by
      rw [div_div, mul_comm (A - 1) r, ← div_div, mul_comm r A, ← mul_assoc,
        mul_div_assoc, div_self (ne_of_gt hr), mul_one]
    rw [hpayr]
    have h2 : P - P * A / (A - 1) = -(P / (A - 1)) := by
      field_simp
      ring
    rw [h2]
    ring

theorem jsRound_zero : jsRound 0 = 0 := by
  norm_num [jsRound]

/-- The payment indices recorded by the schedule end exactly at
`totalPayments`. -/
theorem recorded_indices_concat (n ppy : ℕ) (hn : 1 ≤ n) :
    ((List.range n).map (· + 1)).filter (fun i => i % ppy == 0 || i == n) =
      (((List.range (n - 1)).map (· + 1)).filter
          (fun i => i % ppy == 0 || i == n)) ++ [n] := by
  obtain ⟨m, rfl⟩ : ∃ m, n = m + 1 := ⟨n - 1, by omega⟩
  rw [List.range_succ, List.map_append, List.filter_append]
  simp

/-- C1: for every loan scenario with positive loan amount, nonnegative
annual rate and a positive integer term, with the payment computed once by
the closed-form annuity formula (`P / n` at zero rate) and the balance
advanced by the per-period recurrence, the exact balance after the last
period is 0 (so the last schedule row records a remaining balance of 0), and
the principal components over all periods sum exactly to the original
principal. -/
theorem c1_amortization_closure
    (loanAmount annualInterestRate : ℚ) (loanTermYears : ℕ)
    (paymentFrequency : String) (paymentsPerYear totalPayments : ℕ)
    (ratePerPeriod payment : ℚ)
    (hP : 0 < loanAmount) (hr : 0 ≤ annualInterestRate)
    (hy : 1 ≤ loanTermYears)
    (hppy : paymentsPerYear = frequencies paymentFrequency)
    (hn : totalPayments = loanTermYears * paymentsPerYear)
    (hrp : ratePerPeriod = annualInterestRate / (paymentsPerYear : ℚ))
    (hpay : payment =
      loanPayment loanAmount annualInterestRate totalPayments ratePerPeriod) :
    amortBalance loanAmount payment ratePerPeriod totalPayments = 0 ∧
    sumPrincipal loanAmount payment ratePerPeriod totalPayments = loanAmount ∧
    (generateAmortizationSchedule loanAmount payment ratePerPeriod totalPayments
        paymentsPerYear).getLast?.map ScheduleEntry.remainingBalance = some 0 := by
  have hppy1 : 1 ≤ paymentsPerYear := hppy ▸ one_le_frequencies paymentFrequency
  have hn1 : 1 ≤ totalPayments := by
    rw [hn]
    simpa using Nat.mul_le_mul hy hppy1
  have hbal : amortBalance loanAmount payment ratePerPeriod totalPayments = 0 := by
    rw [hpay, hrp]
    exact amortBalance_final loanAmount annualInterestRate totalPayments
      paymentsPerYear hn1 hppy1 hr
  refine ⟨hbal, ?_, ?_⟩
  · rw [sumPrincipal_eq, hbal, sub_zero]
  · unfold generateAmortizationSchedule
    rw [recorded_indices_concat _ _ hn1, List.map_append]
    simp only [List.map_cons, List.map_nil, List.getLast?_concat,
      Option.map_some']
    simp [scheduleEntryAt, hbal, jsRound_zero]

/-- C1 witness: a 1-year, zero-rate, monthly loan of 1200 closes exactly. -/
theorem c1_amortization_closure_witness :
    (0 : ℚ) < 1200 ∧ (0 : ℚ) ≤ 0 ∧ (1 : ℕ) ≤ 1 ∧
    (amortBalance 1200 (loanPayment 1200 0 12 0) 0 12 = 0 ∧
      sumPrincipal 1200 (loanPayment 1200 0 12 0) 0 12 = 1200 ∧
      (generateAmortizationSchedule 1200 (loanPayment 1200 0 12 0) 0 12
          12).getLast?.map ScheduleEntry.remainingBalance = some 0) :=
  ⟨by norm_num, le_refl 0, le_refl 1,
    c1_amortization_closure 1200 0 1 ("monthly") 12 12 0 (loanPayment 1200 0 12 0)
      (by norm_num) (le_refl 0) (le_refl 1) (by decide) (by norm_num)
      (by norm_num) rfl⟩

/-! ### Bisection-loop lemmas for C3 -/

theorem contribGuardE_error (e : String) : ¬ contribGuardE (Except.error e) :=
  fun h => h

theorem whileIter_contribE_error (ca ra cs tb ai rr : ℚ) (n : ℕ) (e : String) :
    whileIter contribGuardE (contribStepE ca ra cs tb ai rr) n
      (Except.error e) = Except.error e := by
  cases n with
  | zero => rfl
  | succ m =>
    simp only [whileIter]
    rw [if_neg (contribGuardE_error e)]

/-- The contributions loop's guard fails after at most
`100 - iterations` further iterations, from any non-thrown state (a thrown
state is out of the loop immediately). -/
theorem contrib_guard_fails (ca ra cs tb ai rr : ℚ) :
    ∀ n (s : ContribState), 100 - s.iterations ≤ n →
      ¬ contribGuardE (whileIter contribGuardE
        (contribStepE ca ra cs tb ai rr) n (Except.ok s)) := by
  intro n
  induction n with
  | zero =>
    intro s h
    simp only [whileIter]
    intro hg
    exact absurd hg.1 (by omega)
  | succ n ih =>
    intro s h
    simp only [whileIter]
    split
    · rename_i hg
      have hit : s.iterations < 100 := hg.1
      cases hE : calculateRetirementBalanceE ca ra cs ai 0.115
          ((s.low + s.high) / 2) rr 0.025 0.0085 with
      | error e =>
        have hstep : contribStepE ca ra cs tb ai rr (Except.ok s) =
            Except.error e := by
          simp [contribStepE, hE]
        rw [hstep, whileIter_contribE_error]
        exact contribGuardE_error e
      | ok fb =>
        by_cases hc : (fb : ℚ) < tb
        · have hstep : contribStepE ca ra cs tb ai rr (Except.ok s) =
              Except.ok ⟨s.iterations + 1, (s.low + s.high) / 2, s.high⟩ := by
            simp [contribStepE, hE, hc]
          rw [hstep]
          have hn2 : 100 - (s.iterations + 1) ≤ n := by omega
          exact ih ⟨s.iterations + 1, (s.low + s.high) / 2, s.high⟩ hn2
        · have hstep : contribStepE ca ra cs tb ai rr (Except.ok s) =
              Except.ok ⟨s.iterations + 1, s.low, (s.low + s.high) / 2⟩ := by
            simp [contribStepE, hE, hc]
          rw [hstep]
          have hn2 : 100 - (s.iterations + 1) ≤ n := by omega
          exact ih ⟨s.iterations + 1, s.low, (s.low + s.high) / 2⟩ hn2
    · rename_i hg
      exact hg

/-- With valid ages the inner call never throws, and the fuel-style loop of
the source equals the generic while-loop semantics started with the matching
iteration counter. -/
theorem contribLoop_eq_whileIter (ca ra cs tb ai rr : ℚ) (hra : ca < ra) :
    ∀ n, n ≤ 100 → ∀ low high : ℚ,
      ∃ s : ContribState,
        whileIter contribGuardE (contribStepE ca ra cs tb ai rr) n
          (Except.ok ⟨100 - n, low, high⟩) = Except.ok s ∧
        contribLoop ca ra cs tb ai rr n low high =
          Except.ok (s.low, s.high) := by
  intro n
  induction n with
  | zero =>
    intro _ low high
    exact ⟨⟨100, low, high⟩, rfl, rfl⟩
  | succ n ih =>
    intro hn low high
    have hg : contribGuardE (Except.ok
        (⟨100 - (n + 1), low, high⟩ : ContribState)) ↔
        high - low > 0.0001 := by
      constructor
      · intro hx
        exact hx.2
      · intro hx
        exact ⟨show 100 - (n + 1) < 100 by omega, hx⟩
    have hE : calculateRetirementBalanceE ca ra cs ai 0.115
        ((low + high) / 2) rr 0.025 0.0085 =
        Except.ok (jsRound (retirementFinalBalance ca ra cs ai 0.115
          ((low + high) / 2) rr 0.025 0.0085)) := by
      unfold calculateRetirementBalanceE
      rw [if_neg (not_le.mpr hra)]
    simp only [whileIter, contribLoop]
    by_cases hw : high - low > 0.0001
    · rw [if_pos (hg.mpr hw), if_pos hw, hE]
      have hstep : contribStepE ca ra cs tb ai rr
          (Except.ok ⟨100 - (n + 1), low, high⟩) =
          if (jsRound (retirementFinalBalance ca ra cs ai 0.115
              ((low + high) / 2) rr 0.025 0.0085) : ℚ) < tb then
            Except.ok ⟨100 - n, (low + high) / 2, high⟩
          else Except.ok ⟨100 - n, low, (low + high) / 2⟩ := by
        simp only [contribStepE]
        rw [hE]
        dsimp only
        rw [show 100 - (n + 1) + 1 = 100 - n from by omega]
      rw [hstep]
      dsimp only
      by_cases hc : (jsRound (retirementFinalBalance ca ra cs ai 0.115
          ((low + high) / 2) rr 0.025 0.0085) : ℚ) < tb
      · rw [if_pos hc, if_pos hc]
        exact ih (by omega) ((low + high) / 2) high
      · rw [if_neg hc, if_neg hc]
        exact ih (by omega) low ((low + high) / 2)
    · rw [if_neg (fun h => hw (hg.mp h)), if_neg hw]
      exact ⟨⟨100 - (n + 1), low, high⟩, rfl, rfl⟩

/-- When `retirementAge <= currentAge`, any executed iteration of the
contributions loop throws the age-validation error of the inner call. -/
theorem contribLoop_error_of_age (ca ra cs tb ai rr : ℚ) (hra : ra ≤ ca)
    (n : ℕ) (low high : ℚ) (hw : high - low > 0.0001) :
    contribLoop ca ra cs tb ai rr (n + 1) low high =
      Except.error ("Retirement age must be greater than current age.") := by
  have hE : calculateRetirementBalanceE ca ra cs ai 0.115
      ((low + high) / 2) rr 0.025 0.0085 =
      Except.error ("Retirement age must be greater than current age.") := by
    unfold calculateRetirementBalanceE
    rw [if_pos hra]
  simp only [contribLoop]
  rw [if_pos hw, hE]

theorem salaryStep_width (t : ℚ) (s : SalaryState) :
    (salaryStep t s).high - (salaryStep t s).low = (s.high - s.low) / 2 := by
  unfold salaryStep
  dsimp only
  split <;> dsimp only <;> ring

/-- Once the bracket width is below `2 ^ n`, the salary binary search stops
within `n` iterations (the width halves each iteration until it is ≤ 1). -/
theorem salary_stops_of_width_le (t : ℚ) :
    ∀ n (s : SalaryState), s.high - s.low ≤ 2 ^ n →
      ¬ salaryGuard (whileIter salaryGuard (salaryStep t) n s) := by
  intro n
  induction n with
  | zero =>
    intro s hs
    simp only [whileIter]
    intro hg
    rw [pow_zero] at hs
    exact absurd hg (by unfold salaryGuard; linarith)
  | succ n ih =>
    intro s hs
    simp only [whileIter]
    split
    · apply ih
      rw [salaryStep_width]
      rw [pow_succ] at hs
      linarith
    · assumption

theorem salary_terminates (t : ℚ) (s : SalaryState) :
    ∃ k, ¬ salaryGuard (whileIter salaryGuard (salaryStep t) k s) := by
  obtain ⟨m, hm⟩ := exists_nat_gt (s.high - s.low)
  refine ⟨m, salary_stops_of_width_le t m s ?_⟩
  have h2 : (m : ℚ) ≤ 2 ^ m := by
    have := Nat.lt_two_pow m
    exact_mod_cast this.le
  linarith

/-- C3 (amended): every bisection solver terminates — from any state the
contributions loop's guard fails with the 100-iteration cap's fuel, and the
salary binary-search loops halve `high - low` every iteration, so some
finite iteration count falsifies their `high - low > 1` guard.
`calculateRequiredContributions` returns 0 without simulating for a
degenerate target and, whenever `retirementAge > currentAge`, returns the
rounded midpoint of the final interval without raising; but when
`retirementAge <= currentAge` with a non-degenerate target, the inner
`calculateRetirementBalance` call throws on the first iteration and the
error escapes the solver. -/
theorem c3_bisection_termination :
    (∀ ca ra cs tb ai rr : ℚ, ∀ s : Except String ContribState,
      ¬ contribGuardE (whileIter contribGuardE
        (contribStepE ca ra cs tb ai rr) 100 s)) ∧
    (∀ ca ra cs tb ai rr : ℚ, tb ≤ cs →
      calculateRequiredContributions ca ra cs tb ai rr = Except.ok 0) ∧
    (∀ ca ra cs tb ai rr : ℚ, ¬ tb ≤ cs → ca < ra →
      ∃ s : ContribState,
        whileIter contribGuardE (contribStepE ca ra cs tb ai rr) 100
          (Except.ok ⟨0, 0, 0.5⟩) = Except.ok s ∧
        calculateRequiredContributions ca ra cs tb ai rr =
          Except.ok ((jsRound ((s.low + s.high) / 2 * 10000) : ℚ) / 100)) ∧
    (∀ ca ra cs tb ai rr : ℚ, ¬ tb ≤ cs → ra ≤ ca →
      isError (calculateRequiredContributions ca ra cs tb ai rr) = true) ∧
    (∀ t : ℚ, ∀ s : SalaryState,
      (salaryStep t s).high - (salaryStep t s).low = (s.high - s.low) / 2) ∧
    (∀ t : ℚ, ∀ s : SalaryState,
      ∃ k, ¬ salaryGuard (whileIter salaryGuard (salaryStep t) k s)) := by
  refine ⟨?_, ?_, ?_, ?_, salaryStep_width, salary_terminates⟩
  · intro ca ra cs tb ai rr s
    cases s with
    | error e =>
      rw [whileIter_contribE_error]
      exact contribGuardE_error e
    | ok st => exact contrib_guard_fails ca ra cs tb ai rr 100 st (by omega)
  · intro ca ra cs tb ai rr htb
    unfold calculateRequiredContributions
    rw [if_pos htb]
  · intro ca ra cs tb ai rr htb hra
    obtain ⟨s, hwhile, hloop⟩ :=
      contribLoop_eq_whileIter ca ra cs tb ai rr hra 100 (le_refl 100) 0 0.5
    refine ⟨s, hwhile, ?_⟩
    unfold calculateRequiredContributions
    rw [if_neg htb, hloop]
  · intro ca ra cs tb ai rr htb hra
    unfold calculateRequiredContributions
    rw [if_neg htb, show (100 : ℕ) = 99 + 1 from rfl,
      contribLoop_error_of_age ca ra cs tb ai rr hra 99 0 0.5 (by norm_num)]
    rfl

/-- C3 counterexample: the solver does not return its estimate without
raising for all inputs — with `retirementAge = 60 <= currentAge = 67` and a
target above the current balance, the inner `calculateRetirementBalance`
call throws on the first bisection iteration and the error escapes
`calculateRequiredContributions`. -/
theorem c3_midpoint_counterexample :
    isError (calculateRequiredContributions 67 60 0 1000 100 0.07) = true := by
  unfold calculateRequiredContributions
  rw [if_neg (by norm_num : ¬ (1000 : ℚ) ≤ 0),
    show (100 : ℕ) = 99 + 1 from rfl,
    contribLoop_error_of_age 67 60 0 1000 100 0.07 (by norm_num) 99 0 0.5
      (by norm_num)]
  rfl

/-- C3 witness: concrete instances of the amended theorem's
hypothesis-bearing conjuncts — a valid-age run returning the rounded
midpoint, a degenerate target returning 0, and an equal-ages run whose
error escapes. -/
theorem c3_bisection_termination_witness :
    (¬ (1000 : ℚ) ≤ 0) ∧ ((30 : ℚ) < 32) ∧
    (∃ s : ContribState,
      whileIter contribGuardE (contribStepE 30 32 0 1000 100 0.07) 100
        (Except.ok ⟨0, 0, 0.5⟩) = Except.ok s ∧
      calculateRequiredContributions 30 32 0 1000 100 0.07 =
        Except.ok ((jsRound ((s.low + s.high) / 2 * 10000) : ℚ) / 100)) ∧
    ((0 : ℚ) ≤ 5000 ∧ calculateRequiredContributions 30 32 5000 0 100 0.07 =
      Except.ok 0) ∧
    ((67 : ℚ) ≤ 67 ∧
      isError (calculateRequiredContributions 67 67 0 1000 100 0.07) = true) :=
  ⟨by norm_num, by norm_num,
    c3_bisection_termination.2.2.1 30 32 0 1000 100 0.07 (by norm_num)
      (by norm_num),
    ⟨by norm_num,
      c3_bisection_termination.2.1 30 32 5000 0 100 0.07 (by norm_num)⟩,
    ⟨le_refl 67,
      c3_bisection_termination.2.2.2.1 67 67 0 1000 100 0.07 (by norm_num)
        (le_refl 67)⟩⟩

/-! ### Decumulation-timeline lemmas for C4 and C10 -/

theorem swRecordOf_portfolioValue_nonneg (i : ℚ) (year : ℕ) (nb exp : ℚ) :
    0 ≤ (swRecordOf i year nb exp).portfolioValue :=
  jsRound_nonneg (le_max_left 0 nb)

theorem safeAux_nonneg (r i : ℚ) :
    ∀ fuel year (bal exp : ℚ), ∀ rec ∈ safeWithdrawalAux r i fuel year bal exp,
      0 ≤ rec.portfolioValue := by
  intro fuel
  induction fuel with
  | zero =>
    intro year bal exp rec h
    simp [safeWithdrawalAux] at h
  | succ n ih =>
    intro year bal exp rec h
    rw [safeWithdrawalAux] at h
    by_cases hb : swNextBalance r bal exp ≤ 0
    · rw [if_pos hb, List.mem_singleton] at h
      rw [h]
      exact swRecordOf_portfolioValue_nonneg i year _ exp
    · rw [if_neg hb, List.mem_cons] at h
      rcases h with h | h
      · rw [h]
        exact swRecordOf_portfolioValue_nonneg i year _ exp
      · exact ih (year + 1) _ _ rec h

theorem safeAux_length_le (r i : ℚ) :
    ∀ fuel year (bal exp : ℚ),
      (safeWithdrawalAux r i fuel year bal exp).length ≤ fuel := by
  intro fuel
  induction fuel with
  | zero => intro year bal exp; simp [safeWithdrawalAux]
  | succ n ih =>
    intro year bal exp
    rw [safeWithdrawalAux]
    by_cases hb : swNextBalance r bal exp ≤ 0
    · rw [if_pos hb]
      simp
    · rw [if_neg hb]
      simpa using ih (year + 1) _ _

theorem safeAux_ne_nil (r i : ℚ) (n year : ℕ) (bal exp : ℚ) :
    safeWithdrawalAux r i (n + 1) year bal exp ≠ [] := by
  rw [safeWithdrawalAux]
  by_cases hb : swNextBalance r bal exp ≤ 0
  · rw [if_pos hb]
    simp
  · rw [if_neg hb]
    simp

theorem getLast?_cons_of_ne_nil {α : Type} (x : α) {xs : List α}
    (h : xs ≠ []) : (x :: xs).getLast? = xs.getLast? := by
  cases xs with
  | nil => exact absurd rfl h
  | cons y ys => exact List.getLast?_cons_cons

/-- If the safe-withdrawal loop stops before exhausting the requested years
(the early break), its last record carries a zero portfolio value. -/
theorem safeAux_last_zero (r i : ℚ) :
    ∀ fuel year (bal exp : ℚ),
      (safeWithdrawalAux r i fuel year bal exp).length < fuel →
        (safeWithdrawalAux r i fuel year bal exp).getLast?.map
          SWRecord.portfolioValue = some 0 := by
  intro fuel
  induction fuel with
  | zero =>
    intro year bal exp h
    exact absurd h (by omega)
  | succ n ih =>
    intro year bal exp h
    rw [safeWithdrawalAux] at h ⊢
    by_cases hb : swNextBalance r bal exp ≤ 0
    · rw [if_pos hb] at h ⊢
      have hmax : max 0 (swNextBalance r bal exp) = 0 := max_eq_left hb
      simp [swRecordOf, hmax, jsRound_zero]
    · rw [if_neg hb] at h ⊢
      cases n with
      | zero => simp [safeWithdrawalAux] at h
      | succ m =>
        rw [getLast?_cons_of_ne_nil _
          (safeAux_ne_nil r i m (year + 1) (swNextBalance r bal exp)
            (exp * (1 + i)))]
        refine ih (year + 1) (swNextBalance r bal exp) (exp * (1 + i)) ?_
        simp only [List.length_cons] at h
        omega

theorem zeroFill_length (tr : ℤ) :
    ∀ (startYear n : ℕ), (zeroFill tr startYear n).length = n := by
  intro startYear n
  induction n generalizing startYear with
  | zero => rfl
  | succ m ih =>
    rw [zeroFill, List.length_cons, ih (startYear + 1)]

theorem accountAux_length (m r : ℚ) :
    ∀ fuel year (bal total : ℚ),
      (accountAux m r fuel year bal total).length = fuel := by
  intro fuel
  induction fuel with
  | zero => intro year bal total; rfl
  | succ n ih =>
    intro year bal total
    rw [accountAux]
    by_cases hb : abNextBalance m r bal ≤ 0
    · rw [if_pos hb, List.length_cons, zeroFill_length]
    · rw [if_neg hb, List.length_cons, ih (year + 1)]

theorem zeroFill_nonneg (tr : ℤ) :
    ∀ (startYear n : ℕ), ∀ rec ∈ zeroFill tr startYear n,
      0 ≤ rec.remainingValue := by
  intro startYear n
  induction n generalizing startYear with
  | zero => intro rec h; simp [zeroFill] at h
  | succ m ih =>
    intro rec h
    rw [zeroFill, List.mem_cons] at h
    rcases h with h | h
    · rw [h]
    · exact ih (startYear + 1) rec h

theorem accountAux_nonneg (m r : ℚ) :
    ∀ fuel year (bal total : ℚ), ∀ rec ∈ accountAux m r fuel year bal total,
      0 ≤ rec.remainingValue := by
  intro fuel
  induction fuel with
  | zero => intro year bal total rec h; simp [accountAux] at h
  | succ n ih =>
    intro year bal total rec h
    rw [accountAux] at h
    by_cases hb : abNextBalance m r bal ≤ 0
    · rw [if_pos hb, List.mem_cons] at h
      rcases h with h | h
      · rw [h]
        exact jsRound_nonneg (le_max_left 0 _)
      · exact zeroFill_nonneg _ (year + 1) n rec h
    · rw [if_neg hb, List.mem_cons] at h
      rcases h with h | h
      · rw [h]
        exact jsRound_nonneg (le_max_left 0 _)
      · exact ih (year + 1) _ _ rec h

theorem zeroFill_year (tr : ℤ) :
    ∀ (n startYear k : ℕ), k < n →
      ((zeroFill tr startYear n).getD k ⟨0, 0, 0, 0⟩).year = startYear + k := by
  intro n
  induction n with
  | zero => intro startYear k h; omega
  | succ m ih =>
    intro startYear k h
    rw [zeroFill]
    cases k with
    | zero =>
      rw [List.getD_cons_zero]
      rfl
    | succ j =>
      rw [List.getD_cons_succ, ih (startYear + 1) j (by omega)]
      omega

/-- Every position of the account-based timeline is filled, with strictly
increasing year numbers `year, year + 1, ...` (the zero-fill continues the
numbering after depletion). -/
theorem accountAux_year (m r : ℚ) :
    ∀ fuel year (bal total : ℚ) k, k < fuel →
      ((accountAux m r fuel year bal total).getD k ⟨0, 0, 0, 0⟩).year =
        year + k := by
  intro fuel
  induction fuel with
  | zero => intro year bal total k h; omega
  | succ n ih =>
    intro year bal total k h
    rw [accountAux]
    by_cases hb : abNextBalance m r bal ≤ 0
    · rw [if_pos hb]
      cases k with
      | zero =>
        rw [List.getD_cons_zero]
        rfl
      | succ j =>
        rw [List.getD_cons_succ, zeroFill_year _ n (year + 1) j (by omega)]
        omega
    · rw [if_neg hb]
      cases k with
      | zero =>
        rw [List.getD_cons_zero]
        rfl
      | succ j =>
        rw [List.getD_cons_succ, ih (year + 1) _ _ j (by omega)]
        omega

/-- Every record of the safe-withdrawal timeline carries the year number
`year + k` and the expenses escalated `k + 1` times — the escalation for
the following year happens before the record is pushed. -/
theorem safeAux_getD (r i : ℚ) :
    ∀ fuel year (bal exp : ℚ) k,
      k < (safeWithdrawalAux r i fuel year bal exp).length →
      ((safeWithdrawalAux r i fuel year bal exp).getD k ⟨0, 0, 0, 0⟩).year =
          year + k ∧
        ((safeWithdrawalAux r i fuel year bal exp).getD k
            ⟨0, 0, 0, 0⟩).withdrawal = jsRound (exp * (1 + i) ^ (k + 1)) := by
  intro fuel
  induction fuel with
  | zero => intro year bal exp k h; simp [safeWithdrawalAux] at h
  | succ n ih =>
    intro year bal exp k h
    rw [safeWithdrawalAux] at h ⊢
    by_cases hb : swNextBalance r bal exp ≤ 0
    · rw [if_pos hb] at h ⊢
      have hk : k = 0 := by simpa using h
      subst hk
      rw [List.getD_cons_zero]
      exact ⟨rfl, by simp [swRecordOf, pow_one]⟩
    · rw [if_neg hb] at h ⊢
      cases k with
      | zero =>
        rw [List.getD_cons_zero]
        exact ⟨rfl, by simp [swRecordOf, pow_one]⟩
      | succ j =>
        rw [List.getD_cons_succ]
        have hlen : j < (safeWithdrawalAux r i n (year + 1)
            (swNextBalance r bal exp) (exp * (1 + i))).length := by
          simp only [List.length_cons] at h
          omega
        obtain ⟨hy, hw⟩ := ih (year + 1) _ _ j hlen
        refine ⟨by rw [hy]; omega, ?_⟩
        rw [hw]
        congr 1
        ring

/-- C10: in the timeline produced by `calculateSafeWithdrawal`, the record
for year `y = k + 1` stores `withdrawal = round(annualExpenses * (1 +
inflationRate) ^ y)` — the escalation for the following year is applied
before the record is emitted, so year 1 records
`annualExpenses * (1 + inflationRate)`, not the amount actually withdrawn. -/
theorem c10_recorded_withdrawal_escalated (pv e : ℚ) (n : ℕ) (r i : ℚ)
    (k : ℕ) (h : k < (safeWithdrawalTimeline pv e n r i).length) :
    ((safeWithdrawalTimeline pv e n r i).getD k ⟨0, 0, 0, 0⟩).year = k + 1 ∧
    ((safeWithdrawalTimeline pv e n r i).getD k ⟨0, 0, 0, 0⟩).withdrawal =
      jsRound (e * (1 + i) ^ (k + 1)) := by
  unfold safeWithdrawalTimeline at h ⊢
  obtain ⟨hy, hw⟩ := safeAux_getD r i n 1 pv e k h
  exact ⟨by rw [hy]; omega, hw⟩

/-- C10 witness: with expenses 100, zero return and 100% inflation, the
year-2 record stores `round(100 * (1 + 1) ^ 2) = 400`, not the 200 actually
withdrawn that year. -/
theorem c10_recorded_withdrawal_escalated_witness :
    1 < (safeWithdrawalTimeline 1000 100 2 0 1).length ∧
    (((safeWithdrawalTimeline 1000 100 2 0 1).getD 1 ⟨0, 0, 0, 0⟩).year = 2 ∧
      ((safeWithdrawalTimeline 1000 100 2 0 1).getD 1
          ⟨0, 0, 0, 0⟩).withdrawal = jsRound (100 * (1 + 1) ^ 2)) :=
  ⟨by norm_num [safeWithdrawalTimeline, safeWithdrawalAux, swNextBalance],
    c10_recorded_withdrawal_escalated 1000 100 2 0 1 1
      (by norm_num [safeWithdrawalTimeline, safeWithdrawalAux, swNextBalance])⟩

/-- C4 counterexample: `calculateSafeWithdrawal` does NOT record every
remaining period after exhaustion: with portfolio 100, expenses 100 and 3
requested years the portfolio dies in year 1, the loop breaks, and the
timeline has 1 record instead of 3. -/
theorem c4_zero_fill_counterexample :
    (safeWithdrawalTimeline 100 100 3 0.07 0.025).length = 1 ∧
    (safeWithdrawalTimeline 100 100 3 0.07 0.025).length ≠ 3 := by
  norm_num [safeWithdrawalTimeline, safeWithdrawalAux, swNextBalance]

/-- C4 (amended): in both decumulation simulations the recorded balances are
clamped at zero and never negative, and a zero balance earns no further
interest.  After exhaustion, however, only `compareAnnuityVsAccountBased`
records every remaining year (as zero-balance records with consecutive year
numbers); `calculateSafeWithdrawal` breaks instead, so its timeline may be
shorter than the requested years, and when it is, its last record has a zero
portfolio value. -/
theorem c4_decumulation_clamp (pv e : ℚ) (n : ℕ) (r i sb ret : ℚ) :
    (∀ rec ∈ safeWithdrawalTimeline pv e n r i, 0 ≤ rec.portfolioValue) ∧
    (safeWithdrawalTimeline pv e n r i).length ≤ n ∧
    ((safeWithdrawalTimeline pv e n r i).length < n →
      (safeWithdrawalTimeline pv e n r i).getLast?.map
        SWRecord.portfolioValue = some 0) ∧
    (accountTimeline sb ret n).length = n ∧
    (∀ rec ∈ accountTimeline sb ret n, 0 ≤ rec.remainingValue) ∧
    (∀ k, k < n →
      ((accountTimeline sb ret n).getD k ⟨0, 0, 0, 0⟩).year = k + 1) := by
  unfold safeWithdrawalTimeline accountTimeline
  refine ⟨safeAux_nonneg r i n 1 pv e, safeAux_length_le r i n 1 pv e,
    safeAux_last_zero r i n 1 pv e, accountAux_length 0.05 ret n 1 sb 0,
    accountAux_nonneg 0.05 ret n 1 sb 0, ?_⟩
  intro k hk
  rw [accountAux_year 0.05 ret n 1 sb 0 k hk]
  omega

/-- C4 witness: at the counterexample's inputs the truncated safe-withdrawal
timeline ends in a zero-balance record, while the account-based timeline
records all 3 years (year number 3 at index 2). -/
theorem c4_decumulation_clamp_witness :
    ((safeWithdrawalTimeline 100 100 3 0.07 0.025).length < 3 ∧
      (safeWithdrawalTimeline 100 100 3 0.07 0.025).getLast?.map
        SWRecord.portfolioValue = some 0) ∧
    ((2 : ℕ) < 3 ∧
      ((accountTimeline 100 0.06 3).getD 2 ⟨0, 0, 0, 0⟩).year = 3) :=
  ⟨⟨by norm_num [safeWithdrawalTimeline, safeWithdrawalAux, swNextBalance],
      (c4_decumulation_clamp 100 100 3 0.07 0.025 100 0.06).2.2.1
        (by norm_num [safeWithdrawalTimeline, safeWithdrawalAux, swNextBalance])⟩,
    by norm_num,
    (c4_decumulation_clamp 100 100 3 0.07 0.025 100 0.06).2.2.2.2.2 2
      (by norm_num)⟩

/-! ### Rounding and candidate bounds for C9 -/

theorem jsRound_cents_nonneg {p : ℚ} (hp : 0 ≤ p) :
    0 ≤ (jsRound (p * 100) : ℚ) / 100 := by
  have h1 : 0 ≤ jsRound (p * 100) := jsRound_nonneg (by linarith)
  have h2 : (0 : ℚ) ≤ (jsRound (p * 100) : ℚ) := by exact_mod_cast h1
  exact div_nonneg h2 (by norm_num)

theorem jsRound_cents_le {p maxP : ℚ} (n : ℤ) (hn : (n : ℚ) = maxP * 100)
    (hp : p ≤ maxP) : (jsRound (p * 100) : ℚ) / 100 ≤ maxP := by
  have h1 : jsRound (p * 100) ≤ n := jsRound_le_int (by rw [hn]; linarith)
  have h2 : (jsRound (p * 100) : ℚ) ≤ (n : ℚ) := by exact_mod_cast h1
  rw [hn] at h2
  linarith

theorem agePensionMaxFor_nonneg (c : Bool) : 0 ≤ agePensionMaxFor c := by
  cases c <;> norm_num [agePensionMaxFor]

theorem assetsTestPensionOf_nonneg {maxP : ℚ} (thr assets : ℚ)
    (hm : 0 ≤ maxP) : 0 ≤ assetsTestPensionOf maxP thr assets := by
  unfold assetsTestPensionOf
  split
  · exact le_max_left 0 _
  · exact hm

theorem assetsTestPensionOf_le (maxP thr assets : ℚ) (hm : 0 ≤ maxP) :
    assetsTestPensionOf maxP thr assets ≤ maxP := by
  unfold assetsTestPensionOf
  split
  · rename_i hgt
    refine max_le hm ?_
    have : 0 ≤ (assets - thr) / 1000 * 3 := by
      have : (0 : ℚ) ≤ assets - thr := by linarith
      positivity
    linarith
  · exact le_refl maxP

theorem incomeTestPensionOf_nonneg {maxP : ℚ} (fa income : ℚ)
    (hm : 0 ≤ maxP) : 0 ≤ incomeTestPensionOf maxP fa income := by
  unfold incomeTestPensionOf
  split
  · exact le_max_left 0 _
  · exact hm

theorem incomeTestPensionOf_le (maxP fa income : ℚ) (hm : 0 ≤ maxP) :
    incomeTestPensionOf maxP fa income ≤ maxP := by
  unfold incomeTestPensionOf
  split
  · rename_i hgt
    refine max_le hm ?_
    have : 0 ≤ (income / 26 - fa) * 0.50 := by
      have : (0 : ℚ) ≤ income / 26 - fa := by linarith
      positivity
    linarith
  · exact le_refl maxP

/-- C9: for every applicant at or above pension age, the fortnightly
entitlement returned by `calculateAgePension` is the cents-rounding of the
minimum of the assets-test candidate and the income-test candidate (each
clamped at zero inside the candidate), so it is never negative and never
exceeds the maximum pension for the household type. -/
theorem c9_means_test_floor (age assets income : ℚ) (c h : Bool)
    (hage : 67 ≤ age) :
    fortnightlyAmountOf (calculateAgePension age assets income c h) =
      (jsRound (min
          (assetsTestPensionOf (agePensionMaxFor c) (assetsThresholdFor c)
            assets)
          (incomeTestPensionOf (agePensionMaxFor c) (incomeFreeAreaFor c)
            income) * 100) : ℚ) / 100 ∧
    0 ≤ fortnightlyAmountOf (calculateAgePension age assets income c h) ∧
    fortnightlyAmountOf (calculateAgePension age assets income c h) ≤
      agePensionMaxFor c := by
  have hm : 0 ≤ agePensionMaxFor c := agePensionMaxFor_nonneg c
  have heq : fortnightlyAmountOf (calculateAgePension age assets income c h) =
      (jsRound (min
          (assetsTestPensionOf (agePensionMaxFor c) (assetsThresholdFor c)
            assets)
          (incomeTestPensionOf (agePensionMaxFor c) (incomeFreeAreaFor c)
            income) * 100) : ℚ) / 100 := by
    unfold calculateAgePension
    rw [if_neg (not_lt.mpr hage)]
    rfl
  refine ⟨heq, ?_, ?_⟩
  · rw [heq]
    exact jsRound_cents_nonneg (le_min
      (assetsTestPensionOf_nonneg _ _ hm) (incomeTestPensionOf_nonneg _ _ hm))
  · rw [heq]
    have hple : min
        (assetsTestPensionOf (agePensionMaxFor c) (assetsThresholdFor c)
          assets)
        (incomeTestPensionOf (agePensionMaxFor c) (incomeFreeAreaFor c)
          income) ≤ agePensionMaxFor c :=
      le_trans (min_le_left _ _) (assetsTestPensionOf_le _ _ _ hm)
    cases c with
    | false => exact jsRound_cents_le 111630 (by norm_num [agePensionMaxFor]) hple
    | true => exact jsRound_cents_le 168280 (by norm_num [agePensionMaxFor]) hple

/-- C9 witness: the spec's concrete scenario — age 67, single homeowner with
assets exactly at the 301750 threshold and no income — receives the full
single pension of 1116.30 a fortnight, within the [0, max] bounds. -/
theorem c9_means_test_floor_witness :
    (67 : ℚ) ≤ 67 ∧
    (fortnightlyAmountOf (calculateAgePension 67 301750 0 false false) =
        (jsRound (min
            (assetsTestPensionOf (agePensionMaxFor false)
              (assetsThresholdFor false) 301750)
            (incomeTestPensionOf (agePensionMaxFor false)
              (incomeFreeAreaFor false) 0) * 100) : ℚ) / 100 ∧
      0 ≤ fortnightlyAmountOf (calculateAgePension 67 301750 0 false false) ∧
      fortnightlyAmountOf (calculateAgePension 67 301750 0 false false) ≤
        agePensionMaxFor false) :=
  ⟨le_refl 67, c9_means_test_floor 67 301750 0 false false (le_refl 67)⟩
